import Mathlib

/-!
Verification of the aiproxy credential-brokering proxy.

Shallow embedding of the repository's Python sources:
  * `src/auth/gcp_credentials.py`   — `GCPTokenManager`
  * `src/auth/aws_credentials.py`   — `AWSCredentialsManager`
  * `src/services/bedrock_client.py`— `BedrockClientManager`
  * `src/services/gcp_gateway.py`   — `GCPGatewayClient.validate_request`
  * `src/proxyapp.py`               — `predict`, `call_bedrock_service`,
                                      `clean_response`, class-level client cache

Network I/O (identity refresh, STS exchange, backend call) is modelled by
oracle parameters describing the outcome of the single upstream call the
code makes at that point; time is an `Int` of seconds.  Each Python method
body with no interior `await` is one atomic transition; `get_token` /
`get_credentials` additionally report how many upstream refresh calls the
invocation performed.
-/

/-- Model of `fastapi.HTTPException`: an HTTP status code plus a detail string. -/
structure HTTPException where
  status_code : Nat
  detail : String
deriving DecidableEq, Repr

/-- Python `str(e)` for a FastAPI `HTTPException`: `"<status_code>: <detail>"`. -/
def excStr (e : HTTPException) : String :=
  toString e.status_code ++ ": " ++ e.detail

/-- Outcome of one federated-identity refresh (`self._credentials.refresh(Request())`
together with the lazy handle construction inside the same `try`). -/
inductive RefreshResult where
  | success (token : String)
  | failure (msg : String)
deriving DecidableEq, Repr

/-- State of `auth/gcp_credentials.py : GCPTokenManager`.
`token_cache`, `token_expiry` and the lazily built identity-pool handle
`credentials` are the three `Optional` fields; `refresh_buffer` is the
300-second staleness margin set in `__init__`. -/
structure GCPTokenManager where
  token_cache : Option String
  token_expiry : Option Int
  credentials : Option Unit
  refresh_buffer : Int
deriving DecidableEq, Repr

/-- State after `GCPTokenManager.__init__` (after configuration validation). -/
def GCPTokenManager.init : GCPTokenManager :=
  { token_cache := none, token_expiry := none, credentials := none, refresh_buffer := 300 }

/-- Embedding of `GCPTokenManager._is_token_valid`.  Python falsiness: `not self.token_cache`
is true both for `None` and for the empty string. -/
def GCPTokenManager.is_token_valid (m : GCPTokenManager) (now : Int) : Bool :=
  match m.token_cache, m.token_expiry with
  | some t, some e => if t = "" then false else decide (now < e - m.refresh_buffer)
  | _, _ => false

/-- Embedding of `GCPTokenManager.clear_cache`: resets all three optional fields. -/
def GCPTokenManager.clear_cache (m : GCPTokenManager) : GCPTokenManager :=
  { m with token_cache := none, token_expiry := none, credentials := none }

/-- Embedding of `GCPTokenManager.get_token`.  Returns the Python return value
(`self.token_cache`, an `Optional[str]`) or the raised `HTTPException`,
the post-state, and the number of upstream refresh calls performed. -/
def GCPTokenManager.get_token (m : GCPTokenManager) (now : Int) (net : RefreshResult) :
    Except HTTPException (Option String) × GCPTokenManager × Nat :=
  if m.is_token_valid now then
    (.ok m.token_cache, m, 0)
  else
    let m1 : GCPTokenManager :=
      if m.credentials.isNone then { m with credentials := some () } else m
    match net with
    | .success tok =>
        let m2 := { m1 with token_cache := some tok, token_expiry := some (now + 3600) }
        (.ok m2.token_cache, m2, 1)
    | .failure msg =>
        (.error ⟨500, "Failed to get Google Cloud token: " ++ msg⟩, m1.clear_cache, 1)

/-- Folding `get_token` over a sequence of calls (time of call, refresh oracle),
accumulating the results and the total number of upstream refresh calls. -/
def get_token_iter (m : GCPTokenManager) :
    List (Int × RefreshResult) →
      List (Except HTTPException (Option String)) × GCPTokenManager × Nat
  | [] => ([], m, 0)
  | (now, net) :: rest =>
      let r := m.get_token now net
      let t := get_token_iter r.2.1 rest
      (r.1 :: t.1, t.2.1, r.2.2 + t.2.2)

/-- The AWS credential triple cached by `AWSCredentialsManager._refresh_credentials`
(built as one dict literal with the three keys). -/
structure AWSCreds where
  aws_access_key_id : String
  aws_secret_access_key : String
  aws_session_token : String
deriving DecidableEq, Repr

/-- Outcome of one trust-federation exchange (`google refresh` +
`sts.assume_role_with_web_identity`), producing a credential triple and
an expiration timestamp. -/
inductive StsResult where
  | success (creds : AWSCreds) (expiration : Int)
  | failure (msg : String)
deriving DecidableEq, Repr

/-- State of `auth/aws_credentials.py : AWSCredentialsManager`. -/
structure AWSCredentialsManager where
  credentials_cache : Option AWSCreds
  credentials_expiry : Option Int
  google_credentials : Option Unit
  session_duration : Int
  refresh_buffer : Int
deriving DecidableEq, Repr

/-- State after `AWSCredentialsManager.__init__` (after configuration validation). -/
def AWSCredentialsManager.init : AWSCredentialsManager :=
  { credentials_cache := none, credentials_expiry := none, google_credentials := none
    session_duration := 3600, refresh_buffer := 300 }

/-- Embedding of `AWSCredentialsManager._should_refresh_credentials`: refresh when nothing is
cached or `utcnow() >= expiry - refresh_buffer`. -/
def AWSCredentialsManager.should_refresh_credentials
    (m : AWSCredentialsManager) (now : Int) : Bool :=
  match m.credentials_cache, m.credentials_expiry with
  | some _, some e => decide (now ≥ e - m.refresh_buffer)
  | _, _ => true

/-- Embedding of `AWSCredentialsManager.clear_cache`: resets all three optional fields. -/
def AWSCredentialsManager.clear_cache (m : AWSCredentialsManager) : AWSCredentialsManager :=
  { m with credentials_cache := none, credentials_expiry := none, google_credentials := none }

/-- Embedding of `AWSCredentialsManager._refresh_credentials`: lazily builds the Google handle,
runs the exchange; on success installs the triple and the expiration, on failure
clears the cache and raises a plain `Exception` with a wrapped message. -/
def AWSCredentialsManager.refresh_credentials
    (m : AWSCredentialsManager) (net : StsResult) :
    Except String Unit × AWSCredentialsManager :=
  let m1 : AWSCredentialsManager :=
    if m.google_credentials.isNone then { m with google_credentials := some () } else m
  match net with
  | .success creds exp =>
      (.ok (), { m1 with credentials_cache := some creds, credentials_expiry := some exp })
  | .failure msg =>
      (.error ("Failed to refresh AWS credentials: " ++ msg), m1.clear_cache)

/-- Embedding of `AWSCredentialsManager.get_credentials`: refresh when stale, then return
`self._credentials_cache`; any exception clears the cache and raises
`HTTPException(500, ...)`.  Third component counts upstream refresh calls. -/
def AWSCredentialsManager.get_credentials
    (m : AWSCredentialsManager) (now : Int) (net : StsResult) :
    Except HTTPException (Option AWSCreds) × AWSCredentialsManager × Nat :=
  if m.should_refresh_credentials now then
    match m.refresh_credentials net with
    | (.ok _, m1) => (.ok m1.credentials_cache, m1, 1)
    | (.error msg, m1) =>
        (.error ⟨500, "Failed to get AWS credentials: " ++ msg⟩, m1.clear_cache, 1)
  else
    (.ok m.credentials_cache, m, 0)

/-- Folding `get_credentials` over a sequence of calls. -/
def get_credentials_iter (m : AWSCredentialsManager) :
    List (Int × StsResult) →
      List (Except HTTPException (Option AWSCreds)) × AWSCredentialsManager × Nat
  | [] => ([], m, 0)
  | (now, net) :: rest =>
      let r := m.get_credentials now net
      let t := get_credentials_iter r.2.1 rest
      (r.1 :: t.1, t.2.1, r.2.2 + t.2.2)

/-- States reachable through the public operations of `GCPTokenManager`
(`__init__`, `get_token` — also via `get_authorization_headers` — and
`clear_cache`). -/
inductive GCPReach : GCPTokenManager → Prop where
  | init : GCPReach GCPTokenManager.init
  | get : ∀ (m : GCPTokenManager) (now : Int) (net : RefreshResult),
      GCPReach m → GCPReach (m.get_token now net).2.1
  | clear : ∀ (m : GCPTokenManager), GCPReach m → GCPReach m.clear_cache

/-- States reachable through the public operations of `AWSCredentialsManager`
(`__init__`, `get_credentials` — also via `get_boto3_config` — and
`clear_cache`). -/
inductive AWSReach : AWSCredentialsManager → Prop where
  | init : AWSReach AWSCredentialsManager.init
  | get : ∀ (m : AWSCredentialsManager) (now : Int) (net : StsResult),
      AWSReach m → AWSReach (m.get_credentials now net).2.1
  | clear : ∀ (m : AWSCredentialsManager), AWSReach m → AWSReach m.clear_cache

/-- Python `str.lower()` (ASCII range, as used by the operation names). -/
def strLower (s : String) : String := String.mk (s.data.map Char.toLower)

/-- Python `str.startswith(p)`. -/
def strStartsWith (s p : String) : Bool := p.data.isPrefixOf s.data

/-- Embedding of `BedrockClientManager._determine_service` from `src/services/bedrock_client.py`:
lowercase the operation, then the ordered prefix rules over
`self.bedrock_services`. -/
def determine_service (operation : String) : String :=
  let operation_lower := strLower operation
  if strStartsWith operation_lower "invoke" || strStartsWith operation_lower "stream" then
    "bedrock-runtime"
  else if strStartsWith operation_lower "agent" then
    "bedrock-agent"
  else
    "bedrock"

/-- Embedding of `Config.BEDROCK_SERVICES` from `src/proxyapp.py`. -/
def BEDROCK_SERVICES : List (String × String) :=
  [("runtime", "bedrock-runtime"), ("agent", "bedrock-agent"), ("default", "bedrock")]

/-- Python dict read `d[k]` over the association list (keys are present here). -/
def dictGet (l : List (String × String)) (k : String) : String :=
  ((l.find? (fun p => p.1 == k)).map Prod.snd).getD ""

/-- Embedding of `BedrockClientManager._determine_service` from `src/proxyapp.py`
(same rules, routed through `Config.BEDROCK_SERVICES`). -/
def proxyapp_determine_service (operation : String) : String :=
  let operation_lower := strLower operation
  if strStartsWith operation_lower "invoke" || strStartsWith operation_lower "stream" then
    dictGet BEDROCK_SERVICES "runtime"
  else if strStartsWith operation_lower "agent" then
    dictGet BEDROCK_SERVICES "agent"
  else
    dictGet BEDROCK_SERVICES "default"

/-- Modelled from the spec (section 4.5): an ordered rule table, first match wins,
with `default-service` when no rule matches.  Used only to compare against the
source's `_determine_service`. -/
def specServiceRules : List (List String × String) :=
  [(["invoke", "stream"], "bedrock-runtime"), (["agent"], "bedrock-agent")]

/-- Modelled from the spec (section 4.5): first-match-wins resolver over the rules. -/
def firstMatch : List (List String × String) → String → String
  | [], _ => "bedrock"
  | (prefixes, svc) :: rest, op =>
      if prefixes.any (fun p => strStartsWith op p) then svc else firstMatch rest op

/-- Modelled from the spec (section 4.5): `resolveService` — case-insensitive,
ordered, first-match-wins prefix matching. -/
def resolveServiceSpec (operation : String) : String :=
  firstMatch specServiceRules (strLower operation)

/-- Values flowing through `clean_response`: raw bytes, strings, mapping-like
boto3 responses, and any other Python value (opaque tag). -/
inductive PyVal where
  | pyBytes (b : List UInt8)
  | pyStr (s : String)
  | pyDict (entries : List (String × PyVal))
  | pyOther (tag : Nat)

/-- Python `bytes.decode('utf-8')`: yields the decoded text on valid UTF-8 and
raises `UnicodeDecodeError` (the `.error` branch) on invalid byte sequences. -/
def decode_utf8 (b : List UInt8) : Except String String :=
  match String.fromUTF8? (ByteArray.mk (Array.mk b)) with
  | some s => .ok s
  | none => .error "UnicodeDecodeError"

/-- The per-entry transform inside `clean_response`'s mapping branch:
bytes values are decoded (possibly raising), everything else is kept. -/
def decodeEntry : PyVal → Except String PyVal
  | .pyBytes b => (decode_utf8 b).map .pyStr
  | v => .ok v

/-- The `for key in response.keys()` loop of `clean_response`: decodes the
entries in order, propagating the first decode error. -/
def cleanEntries : List (String × PyVal) → Except String (List (String × PyVal))
  | [] => .ok []
  | (k, v) :: rest =>
      match decodeEntry v with
      | .error e => .error e
      | .ok v2 =>
          match cleanEntries rest with
          | .error e => .error e
          | .ok r => .ok ((k, v2) :: r)

/-- Embedding of `clean_response` from `src/proxyapp.py`: bytes become `{"body": text}`,
mapping-like values get their bytes-valued entries decoded, anything else
passes through unchanged; a `UnicodeDecodeError` from any decode propagates
to the caller as the `.error` branch. -/
def clean_response : PyVal → Except String PyVal
  | .pyBytes b => (decode_utf8 b).map (fun s => .pyDict [("body", .pyStr s)])
  | .pyDict entries => (cleanEntries entries).map .pyDict
  | v => .ok v

/-- The PascalCase → snake_case translation inside `call_bedrock_service`:
`''.join('_' + c.lower() if c.isupper() else c.lower() for c in op).lstrip('_')`. -/
def to_snake_case (s : String) : String :=
  String.mk
    (((s.data.map (fun c => if c.isUpper then ['_', c.toLower] else [c.toLower])).flatten).dropWhile
      (fun c => c == '_'))

/-- Outcome of the dynamically dispatched backend call
(`operation_method(**payload)`). -/
inductive BackendResult where
  | success (resp : PyVal)
  | failure (msg : String)

/-- Embedding of `call_bedrock_service` from `src/proxyapp.py`.  The resolved boto3 client is
abstracted by the list of method names it exposes; a missing method is the
`AttributeError` branch (HTTP 400), a failing call the generic branch (HTTP 500);
a successful call is wrapped in the success envelope with `clean_response`. -/
def call_bedrock_service (client_methods : List String) (operation : String)
    (backend : BackendResult) : Except HTTPException PyVal :=
  let operation_name := to_snake_case operation
  if client_methods.contains operation_name then
    match backend with
    | .success resp =>
        match clean_response resp with
        | .ok cleaned =>
            .ok (.pyDict [("status", .pyStr "success"), ("operation", .pyStr operation),
              ("response", cleaned)])
        | .error e => .error ⟨500, "Error calling Bedrock service: " ++ e⟩
    | .failure msg => .error ⟨500, "Error calling Bedrock service: " ++ msg⟩
  else
    .error ⟨400, "Invalid Bedrock operation: " ++ operation⟩

/-- The `/predict` handler of `src/proxyapp.py`, after the gateway round trip,
parameterised by the gateway verdict's `status` field.  The boolean records
whether the Bedrock branch (`call_bedrock_service`) ran.  Every exception the
body raises — including the handler's own `HTTPException(403)` — is caught by
the trailing `except Exception` and re-raised as `HTTPException(500, ...)`. -/
def predict (gatewayStatus : String) (client_methods : List String) (operation : String)
    (backend : BackendResult) : Except HTTPException PyVal × Bool :=
  let inner : Except HTTPException PyVal × Bool :=
    if gatewayStatus == "approved" then
      (call_bedrock_service client_methods operation backend, true)
    else
      (.error ⟨403, "Request not approved by GCP Gateway"⟩, false)
  match inner with
  | (.ok r, b) => (.ok r, b)
  | (.error e, b) => (.error ⟨500, "Error processing request: " ++ excStr e⟩, b)

/-- Embedding of `GCPGatewayClient.validate_request` from `src/services/gcp_gateway.py`, after a
2xx gateway reply, parameterised by the verdict's `status` field.  The
`HTTPException(403)` raised for a non-approved verdict is itself caught by the
method's own `except Exception` and re-raised as `HTTPException(500, ...)`. -/
def validate_request (gatewayStatus : String) : Except HTTPException String :=
  let body : Except HTTPException String :=
    if gatewayStatus == "approved" then .ok gatewayStatus
    else .error ⟨403, "Request not approved by GCP Gateway"⟩
  match body with
  | .ok v => .ok v
  | .error e => .error ⟨500, "Validation error: " ++ excStr e⟩

/-- A constructed boto3 client: the sub-service it is bound to, the credentials
baked into its `Config` (none for the `proxyapp.py` variant, which passes only
the region), the region, and a construction sequence number distinguishing
separately constructed client objects. -/
structure BotoClient where
  service : String
  creds : Option AWSCreds
  region : String
  cid : Nat
deriving DecidableEq, Repr

/-- Python dict assignment `d[k] = v` on an association list. -/
def listSet (l : List (String × BotoClient)) (k : String) (v : BotoClient) :
    List (String × BotoClient) :=
  if l.any (fun p => p.1 == k) then
    l.map (fun p => if p.1 == k then (k, v) else p)
  else
    l ++ [(k, v)]

/-- The `_instances` cache of `src/services/bedrock_client.py : BedrockClientManager`. -/
structure BedrockClientManager where
  instances : List (String × BotoClient)
deriving DecidableEq, Repr

/-- Embedding of `BedrockClientManager.get_client` from `src/services/bedrock_client.py`:
resolves the service, fetches credentials (passed in as the awaited result of
`get_credentials`), then unconditionally constructs a fresh boto3 client and
stores it in `_instances[service]`.  `ctr` is the construction counter; it
increases on every `boto3.client(...)` call. -/
def BedrockClientManager.get_client (m : BedrockClientManager) (operation : String)
    (creds : AWSCreds) (region : String) (ctr : Nat) :
    BotoClient × BedrockClientManager × Nat :=
  let service := determine_service operation
  let client : BotoClient := ⟨service, some creds, region, ctr⟩
  (client, ⟨listSet m.instances service client⟩, ctr + 1)

/-- Embedding of `BedrockClientManager.get_client` from `src/proxyapp.py`: constructs a client
(region only, no credentials) only when `service not in cls._instances`, then
returns the cached one. -/
def proxyapp_get_client (instances : List (String × BotoClient)) (operation : String)
    (region : String) (ctr : Nat) : BotoClient × List (String × BotoClient) × Nat :=
  let service := proxyapp_determine_service operation
  match instances.find? (fun p => p.1 == service) with
  | some p => (p.2, instances, ctr)
  | none =>
      let client : BotoClient := ⟨service, none, region, ctr⟩
      (client, instances ++ [(service, client)], ctr + 1)

/-- Program counter of one logical request running `GCPTokenManager.get_token`
under the spec's concurrency model (section 5), which declares the identity
refresh a suspension point: `start` = about to read the cache, `pending` =
observed a stale cache and suspended at the upstream refresh, `finished r` =
returned `r`. -/
inductive TaskPC where
  | start
  | pending
  | finished (result : Option String)
deriving DecidableEq, Repr

/-- Shared state of the token store plus a count of upstream refresh calls. -/
structure SharedSF where
  mgr : GCPTokenManager
  refresh_calls : Nat
deriving DecidableEq, Repr

/-- One atomic step of a task running `get_token` at time `now`, whose own
upstream refresh (once it completes) yields `tok`.  The two halves before and
after the suspension point are exactly the two halves of `get_token`'s body. -/
def sfStep (now : Int) (tok : String) : SharedSF → TaskPC → SharedSF × TaskPC
  | st, .start =>
      if st.mgr.is_token_valid now then (st, .finished st.mgr.token_cache)
      else (st, .pending)
  | st, .pending =>
      let m := st.mgr
      let m1 : GCPTokenManager :=
        if m.credentials.isNone then { m with credentials := some () } else m
      let m2 := { m1 with token_cache := some tok, token_expiry := some (now + 3600) }
      ({ mgr := m2, refresh_calls := st.refresh_calls + 1 }, .finished (some tok))
  | st, .finished r => (st, .finished r)

/-- Run two concurrent `get_token` tasks under an explicit interleaving:
`false` steps task A (whose refresh yields `tokA`), `true` steps task B. -/
def runTwo (now : Int) (tokA tokB : String) :
    List Bool → SharedSF → TaskPC → TaskPC → SharedSF × TaskPC × TaskPC
  | [], st, pA, pB => (st, pA, pB)
  | b :: rest, st, pA, pB =>
      if b then
        let r := sfStep now tokB st pB
        runTwo now tokA tokB rest r.1 pA r.2
      else
        let r := sfStep now tokA st pA
        runTwo now tokA tokB rest r.1 r.2 pB

/-- The spec's data-model invariant for `CachedToken`, stated literally: the
cached value is a non-empty string iff the expiry is set. -/
def gcp_value_nonempty_iff_expiry (m : GCPTokenManager) : Prop :=
  (∃ t, m.token_cache = some t ∧ t ≠ "") ↔ m.token_expiry.isSome = true

/-- The spec's data-model invariant for `CachedCredentialSet`, stated literally:
all three credential strings are non-empty iff the expiry is set. -/
def aws_triple_nonempty_iff_expiry (a : AWSCredentialsManager) : Prop :=
  (∃ c, a.credentials_cache = some c ∧ c.aws_access_key_id ≠ "" ∧
    c.aws_secret_access_key ≠ "" ∧ c.aws_session_token ≠ "") ↔
    a.credentials_expiry.isSome = true

/-- States of `GCPTokenManager` reachable when every successful upstream refresh
returns a non-empty token (the code itself never checks emptiness, so this
restriction is on the environment, not the code). -/
inductive GCPReachNE : GCPTokenManager → Prop where
  | init : GCPReachNE GCPTokenManager.init
  | get_success : ∀ (m : GCPTokenManager) (now : Int) (tok : String), tok ≠ "" →
      GCPReachNE m → GCPReachNE (m.get_token now (.success tok)).2.1
  | get_failure : ∀ (m : GCPTokenManager) (now : Int) (msg : String),
      GCPReachNE m → GCPReachNE (m.get_token now (.failure msg)).2.1
  | clear : ∀ (m : GCPTokenManager), GCPReachNE m → GCPReachNE m.clear_cache

/-- States of `AWSCredentialsManager` reachable when every successful exchange
returns a triple of non-empty credential strings. -/
inductive AWSReachNE : AWSCredentialsManager → Prop where
  | init : AWSReachNE AWSCredentialsManager.init
  | get_success : ∀ (a : AWSCredentialsManager) (now exp : Int) (c : AWSCreds),
      c.aws_access_key_id ≠ "" → c.aws_secret_access_key ≠ "" → c.aws_session_token ≠ "" →
      AWSReachNE a → AWSReachNE (a.get_credentials now (.success c exp)).2.1
  | get_failure : ∀ (a : AWSCredentialsManager) (now : Int) (msg : String),
      AWSReachNE a → AWSReachNE (a.get_credentials now (.failure msg)).2.1
  | clear : ∀ (a : AWSCredentialsManager), AWSReachNE a → AWSReachNE a.clear_cache

/-! ## Helper lemmas -/

/-- Characterisation of `_is_token_valid`: true exactly when a (truthy) token and
an expiry are cached and `now` is strictly before `expiry - refresh_buffer`. -/
theorem gcp_valid_iff (m : GCPTokenManager) (now : Int) :
    m.is_token_valid now = true ↔
      ∃ t e, m.token_cache = some t ∧ t ≠ "" ∧ m.token_expiry = some e ∧
        now < e - m.refresh_buffer := by
  unfold GCPTokenManager.is_token_valid
  cases hc : m.token_cache with
  | none => simp
  | some t =>
    cases he : m.token_expiry with
    | none => simp
    | some e =>
      by_cases ht : t = ""
      · simp [ht]
      · simp [ht]

/-- Characterisation of `_should_refresh_credentials` (negated): the cache is
usable exactly when a triple and an expiry are cached and `now` is strictly
before `expiry - refresh_buffer`. -/
theorem aws_valid_iff (a : AWSCredentialsManager) (now : Int) :
    a.should_refresh_credentials now = false ↔
      ∃ c e, a.credentials_cache = some c ∧ a.credentials_expiry = some e ∧
        now < e - a.refresh_buffer := by
  unfold AWSCredentialsManager.should_refresh_credentials
  cases hc : a.credentials_cache with
  | none => simp
  | some c =>
    cases he : a.credentials_expiry with
    | none => simp
    | some e =>
      simp [not_le]
      omega

/-- After a successful `get_token` refresh at `t0` (TTL 3600, buffer 300) the
cache is valid exactly before `t0 + 3300`, and any later `get_token` performs
exactly one upstream refresh call. -/
theorem gcp_after_refresh (m : GCPTokenManager) (t0 : Int) (tok : String) (t : Int)
    (net : RefreshResult) (hb : m.refresh_buffer = 300) (hv : m.is_token_valid t0 = false)
    (ht : tok ≠ "") :
    ((m.get_token t0 (.success tok)).2.1.is_token_valid t = true ↔ t < t0 + 3300) ∧
    (t0 + 3300 ≤ t → ((m.get_token t0 (.success tok)).2.1.get_token t net).2.2 = 1) := by
  have key : ∃ mc : Option Unit,
      (m.get_token t0 (.success tok)).2.1 =
        { m with credentials := mc, token_cache := some tok, token_expiry := some (t0 + 3600) } := by
    unfold GCPTokenManager.get_token
    simp only [hv, Bool.false_eq_true, if_false]
    split
    · exact ⟨some (), rfl⟩
    · exact ⟨m.credentials, rfl⟩
  obtain ⟨mc, hM⟩ := key
  rw [hM]
  have hval : ∀ s : Int,
      GCPTokenManager.is_token_valid { m with credentials := mc, token_cache := some tok, token_expiry := some (t0 + 3600) } s = decide (s < t0 + 3300) := by
    intro s
    simp only [GCPTokenManager.is_token_valid, hb, if_neg ht]
    exact decide_eq_decide.mpr (by omega)
  constructor
  · rw [hval]
    simp
  · intro hle
    have hv2 : GCPTokenManager.is_token_valid { m with credentials := mc, token_cache := some tok, token_expiry := some (t0 + 3600) } t = false := by
      rw [hval]
      simp only [decide_eq_false_iff_not, not_lt]
      omega
    cases net with
    | success tk => simp [GCPTokenManager.get_token, hv2]
    | failure msg => simp [GCPTokenManager.get_token, hv2]

/-- After a successful `get_credentials` refresh at `t0` whose STS expiration is
`t0 + 3600` (buffer 300), the cache is usable exactly before `t0 + 3300`, and
any later `get_credentials` performs exactly one upstream refresh call. -/
theorem aws_after_refresh (a : AWSCredentialsManager) (t0 : Int) (c : AWSCreds) (t : Int)
    (net : StsResult) (hb : a.refresh_buffer = 300)
    (hv : a.should_refresh_credentials t0 = true) :
    ((a.get_credentials t0 (.success c (t0 + 3600))).2.1.should_refresh_credentials t = false ↔
      t < t0 + 3300) ∧
    (t0 + 3300 ≤ t →
      ((a.get_credentials t0 (.success c (t0 + 3600))).2.1.get_credentials t net).2.2 = 1) := by
  have key : ∃ g : Option Unit,
      (a.get_credentials t0 (.success c (t0 + 3600))).2.1 =
        { a with google_credentials := g, credentials_cache := some c, credentials_expiry := some (t0 + 3600) } := by
    unfold AWSCredentialsManager.get_credentials AWSCredentialsManager.refresh_credentials
    simp only [hv, if_true]
    split
    · exact ⟨some (), rfl⟩
    · exact ⟨a.google_credentials, rfl⟩
  obtain ⟨g, hM⟩ := key
  rw [hM]
  have hval : ∀ s : Int,
      AWSCredentialsManager.should_refresh_credentials { a with google_credentials := g, credentials_cache := some c, credentials_expiry := some (t0 + 3600) } s = decide (s ≥ t0 + 3300) := by
    intro s
    simp only [AWSCredentialsManager.should_refresh_credentials, hb]
    exact decide_eq_decide.mpr (by omega)
  constructor
  · rw [hval]
    simp only [decide_eq_false_iff_not, ge_iff_le, not_le]
  · intro hle
    have hv2 : AWSCredentialsManager.should_refresh_credentials { a with google_credentials := g, credentials_cache := some c, credentials_expiry := some (t0 + 3600) } t = true := by
      rw [hval]
      simp only [decide_eq_true_eq, ge_iff_le]
      omega
    cases net with
    | success cr e2 => simp [AWSCredentialsManager.get_credentials, hv2,
        AWSCredentialsManager.refresh_credentials]
    | failure msg => simp [AWSCredentialsManager.get_credentials, hv2,
        AWSCredentialsManager.refresh_credentials]

/-- On a stale cache, a failed refresh makes `get_token` raise a 500 and fully
reset the three cached fields. -/
theorem gcp_fail_clears (m : GCPTokenManager) (now : Int) (msg : String)
    (hv : m.is_token_valid now = false) :
    (∃ d, (m.get_token now (.failure msg)).1 = .error ⟨500, d⟩) ∧
    (m.get_token now (.failure msg)).2.1.token_cache = none ∧
    (m.get_token now (.failure msg)).2.1.token_expiry = none ∧
    (m.get_token now (.failure msg)).2.1.credentials = none := by
  unfold GCPTokenManager.get_token
  simp only [hv, Bool.false_eq_true, if_false]
  exact ⟨⟨_, rfl⟩, rfl, rfl, rfl⟩

/-- On a stale cache, a failed exchange makes `get_credentials` raise a 500 and
fully reset the three cached fields. -/
theorem aws_fail_clears (a : AWSCredentialsManager) (now : Int) (msg : String)
    (hv : a.should_refresh_credentials now = true) :
    (∃ d, (a.get_credentials now (.failure msg)).1 = .error ⟨500, d⟩) ∧
    (a.get_credentials now (.failure msg)).2.1.credentials_cache = none ∧
    (a.get_credentials now (.failure msg)).2.1.credentials_expiry = none ∧
    (a.get_credentials now (.failure msg)).2.1.google_credentials = none := by
  unfold AWSCredentialsManager.get_credentials AWSCredentialsManager.refresh_credentials
  simp only [hv, if_true]
  exact ⟨⟨_, rfl⟩, rfl, rfl, rfl⟩

/-- While the cache is valid, `get_token` returns it unchanged with no upstream call. -/
theorem gcp_valid_get (m : GCPTokenManager) (now : Int) (net : RefreshResult)
    (h : m.is_token_valid now = true) :
    m.get_token now net = (.ok m.token_cache, m, 0) := by
  simp [GCPTokenManager.get_token, h]

/-- While the cache is usable, `get_credentials` returns it unchanged with no
upstream call. -/
theorem aws_valid_get (a : AWSCredentialsManager) (now : Int) (net : StsResult)
    (h : a.should_refresh_credentials now = false) :
    a.get_credentials now net = (.ok a.credentials_cache, a, 0) := by
  simp [AWSCredentialsManager.get_credentials, h]

/-- Any sequence of `get_token` calls at valid instants returns the cached value
every time, leaves the state unchanged, and makes zero upstream calls. -/
theorem gcp_iter_valid (m : GCPTokenManager) (l : List (Int × RefreshResult)) :
    (∀ p ∈ l, m.is_token_valid p.1 = true) →
      get_token_iter m l = (l.map (fun _ => Except.ok m.token_cache), m, 0) := by
  induction l with
  | nil => intro _; rfl
  | cons hd tl ih =>
      intro h
      obtain ⟨now, net⟩ := hd
      have h1 : m.is_token_valid now = true := h _ (List.mem_cons_self _ _)
      have h2 : ∀ p ∈ tl, m.is_token_valid p.1 = true :=
        fun p hp => h p (List.mem_cons_of_mem _ hp)
      simp [get_token_iter, gcp_valid_get m now net h1, ih h2]

/-- Any sequence of `get_credentials` calls at valid instants returns the cached
triple every time, leaves the state unchanged, and makes zero upstream calls. -/
theorem aws_iter_valid (a : AWSCredentialsManager) (l : List (Int × StsResult)) :
    (∀ p ∈ l, a.should_refresh_credentials p.1 = false) →
      get_credentials_iter a l = (l.map (fun _ => Except.ok a.credentials_cache), a, 0) := by
  induction l with
  | nil => intro _; rfl
  | cons hd tl ih =>
      intro h
      obtain ⟨now, net⟩ := hd
      have h1 : a.should_refresh_credentials now = false := h _ (List.mem_cons_self _ _)
      have h2 : ∀ p ∈ tl, a.should_refresh_credentials p.1 = false :=
        fun p hp => h p (List.mem_cons_of_mem _ hp)
      simp [get_credentials_iter, aws_valid_get a now net h1, ih h2]

/-- Every reachable `GCPTokenManager` state has its token and expiry set or
unset together. -/
theorem gcp_pairing (m : GCPTokenManager) (h : GCPReach m) :
    m.token_cache.isSome = m.token_expiry.isSome := by
  induction h with
  | init => rfl
  | get m now net _ ih =>
      by_cases hv : m.is_token_valid now
      · simp [GCPTokenManager.get_token, hv, ih]
      · simp only [Bool.not_eq_true] at hv
        unfold GCPTokenManager.get_token
        simp only [hv, Bool.false_eq_true, if_false]
        cases net with
        | success tok => rfl
        | failure msg => rfl
  | clear m _ _ => rfl

/-- Every reachable `AWSCredentialsManager` state has its credential triple and
expiry set or unset together. -/
theorem aws_pairing (a : AWSCredentialsManager) (h : AWSReach a) :
    a.credentials_cache.isSome = a.credentials_expiry.isSome := by
  induction h with
  | init => rfl
  | get a now net _ ih =>
      by_cases hv : a.should_refresh_credentials now
      · unfold AWSCredentialsManager.get_credentials AWSCredentialsManager.refresh_credentials
        simp only [hv, if_true]
        cases net with
        | success cr e2 => rfl
        | failure msg => rfl
      · simp only [Bool.not_eq_true] at hv
        simp [AWSCredentialsManager.get_credentials, hv, ih]
  | clear a _ _ => rfl

/-- Every successful output of the per-entry decode is a fixed point of it. -/
theorem decodeEntry_fix (v w : PyVal) (h : decodeEntry v = .ok w) :
    decodeEntry w = .ok w := by
  cases v with
  | pyBytes b =>
      have h2 : (decode_utf8 b).map PyVal.pyStr = .ok w := h
      cases hd : decode_utf8 b with
      | error e => rw [hd] at h2; exact absurd h2 (by simp [Except.map])
      | ok s =>
          rw [hd] at h2
          simp only [Except.map] at h2
          cases h2
          rfl
  | pyStr s => cases h; rfl
  | pyDict es => cases h; rfl
  | pyOther n => cases h; rfl

/-- Every successful output of the entry loop is a fixed point of it. -/
theorem cleanEntries_fix :
    ∀ (es es' : List (String × PyVal)), cleanEntries es = .ok es' →
      cleanEntries es' = .ok es' := by
  intro es
  induction es with
  | nil =>
      intro es' h
      cases h
      rfl
  | cons hd tl ih =>
      obtain ⟨k, v⟩ := hd
      intro es' h
      unfold cleanEntries at h
      cases hv : decodeEntry v with
      | error e => rw [hv] at h; exact absurd h (by simp)
      | ok v2 =>
          rw [hv] at h
          cases ht : cleanEntries tl with
          | error e => rw [ht] at h; exact absurd h (by simp)
          | ok r =>
              rw [ht] at h
              cases h
              unfold cleanEntries
              rw [decodeEntry_fix v v2 hv, ih r ht]

/-- The non-emptiness pairing invariant holds over every state reachable with
non-empty upstream tokens. -/
theorem gcp_pairing_ne (m : GCPTokenManager) (h : GCPReachNE m) :
    gcp_value_nonempty_iff_expiry m := by
  induction h with
  | init => simp [gcp_value_nonempty_iff_expiry, GCPTokenManager.init]
  | get_success m now tok hne _ ih =>
      by_cases hv : m.is_token_valid now
      · rw [gcp_valid_get m now _ hv]
        exact ih
      · simp only [Bool.not_eq_true] at hv
        unfold GCPTokenManager.get_token
        simp only [hv, Bool.false_eq_true, if_false]
        exact ⟨fun _ => rfl, fun _ => ⟨tok, rfl, hne⟩⟩
  | get_failure m now msg _ ih =>
      by_cases hv : m.is_token_valid now
      · rw [gcp_valid_get m now _ hv]
        exact ih
      · simp only [Bool.not_eq_true] at hv
        unfold GCPTokenManager.get_token
        simp only [hv, Bool.false_eq_true, if_false]
        simp [gcp_value_nonempty_iff_expiry, GCPTokenManager.clear_cache]
  | clear m _ _ => simp [gcp_value_nonempty_iff_expiry, GCPTokenManager.clear_cache]

/-- The three-string non-emptiness pairing invariant holds over every state
reachable with non-empty exchanged credentials. -/
theorem aws_pairing_ne (a : AWSCredentialsManager) (h : AWSReachNE a) :
    aws_triple_nonempty_iff_expiry a := by
  induction h with
  | init => simp [aws_triple_nonempty_iff_expiry, AWSCredentialsManager.init]
  | get_success a now exp c h1 h2 h3 _ ih =>
      by_cases hv : a.should_refresh_credentials now
      · unfold AWSCredentialsManager.get_credentials AWSCredentialsManager.refresh_credentials
        simp only [hv, if_true]
        exact ⟨fun _ => rfl, fun _ => ⟨c, rfl, h1, h2, h3⟩⟩
      · simp only [Bool.not_eq_true] at hv
        rw [aws_valid_get a now _ hv]
        exact ih
  | get_failure a now msg _ ih =>
      by_cases hv : a.should_refresh_credentials now
      · unfold AWSCredentialsManager.get_credentials AWSCredentialsManager.refresh_credentials
        simp only [hv, if_true]
        simp [aws_triple_nonempty_iff_expiry, AWSCredentialsManager.clear_cache]
      · simp only [Bool.not_eq_true] at hv
        rw [aws_valid_get a now _ hv]
        exact ih
  | clear a _ _ => simp [aws_triple_nonempty_iff_expiry, AWSCredentialsManager.clear_cache]

/-! ## Claim theorems -/

/-- C1: For both token stores, the validity check returns true iff a value is
cached and `now < expiresAt - refreshBuffer`; after a successful refresh with
TTL 3600 s and buffer 300 s, the cache is valid at every instant strictly before
`expiresAt - 300` and invalid at and after it, and then the next get performs a
real (exactly one) upstream refresh. -/
theorem c1_token_validity_characterization :
    (∀ (m : GCPTokenManager) (now : Int),
        m.is_token_valid now = true ↔
          ∃ t e, m.token_cache = some t ∧ t ≠ "" ∧ m.token_expiry = some e ∧
            now < e - m.refresh_buffer) ∧
    (∀ (a : AWSCredentialsManager) (now : Int),
        a.should_refresh_credentials now = false ↔
          ∃ c e, a.credentials_cache = some c ∧ a.credentials_expiry = some e ∧
            now < e - a.refresh_buffer) ∧
    (∀ (m : GCPTokenManager) (t0 : Int) (tok : String) (t : Int) (net : RefreshResult),
        m.refresh_buffer = 300 → m.is_token_valid t0 = false → tok ≠ "" →
        ((m.get_token t0 (.success tok)).2.1.is_token_valid t = true ↔ t < t0 + 3300) ∧
        (t0 + 3300 ≤ t → ((m.get_token t0 (.success tok)).2.1.get_token t net).2.2 = 1)) ∧
    (∀ (a : AWSCredentialsManager) (t0 : Int) (c : AWSCreds) (t : Int) (net : StsResult),
        a.refresh_buffer = 300 → a.should_refresh_credentials t0 = true →
        ((a.get_credentials t0 (.success c (t0 + 3600))).2.1.should_refresh_credentials t
            = false ↔ t < t0 + 3300) ∧
        (t0 + 3300 ≤ t →
          ((a.get_credentials t0 (.success c (t0 + 3600))).2.1.get_credentials t net).2.2 = 1)) :=
  ⟨gcp_valid_iff, aws_valid_iff,
   fun m t0 tok t net hb hv ht => gcp_after_refresh m t0 tok t net hb hv ht,
   fun a t0 c t net hb hv => aws_after_refresh a t0 c t net hb hv⟩

/-- Witness for C1 at concrete inputs: refresh both stores at time 0, observe
invalidity at 3301 (resp. usability boundary) and a real refresh on the next get. -/
theorem c1_witness :
    ((GCPTokenManager.init.get_token 0 (.success "tok")).2.1.is_token_valid 3301 = true ↔
      (3301 : Int) < 0 + 3300) ∧
    (((GCPTokenManager.init.get_token 0 (.success "tok")).2.1.get_token 3301
        (.failure "boom")).2.2 = 1) ∧
    ((AWSCredentialsManager.init.get_credentials 0
        (.success (AWSCreds.mk "AK" "SK" "ST") (0 + 3600))).2.1.should_refresh_credentials 3299
        = false ↔ (3299 : Int) < 0 + 3300) ∧
    (((AWSCredentialsManager.init.get_credentials 0
        (.success (AWSCreds.mk "AK" "SK" "ST") (0 + 3600))).2.1.get_credentials 3300
        (.failure "boom")).2.2 = 1) :=
  ⟨(c1_token_validity_characterization.2.2.1 GCPTokenManager.init 0 "tok" 3301
      (.failure "boom") rfl rfl (by decide)).1,
   (c1_token_validity_characterization.2.2.1 GCPTokenManager.init 0 "tok" 3301
      (.failure "boom") rfl rfl (by decide)).2 (by decide),
   (c1_token_validity_characterization.2.2.2 AWSCredentialsManager.init 0
      (AWSCreds.mk "AK" "SK" "ST") 3299 (.failure "boom") rfl rfl).1,
   (c1_token_validity_characterization.2.2.2 AWSCredentialsManager.init 0
      (AWSCreds.mk "AK" "SK" "ST") 3300 (.failure "boom") rfl rfl).2 (by decide)⟩

/-- C2: On any failed refresh of a stale cache, `get_token` / `get_credentials`
fails with an HTTP 500 auth error, and afterwards the cached value, the expiry,
and the lazily built credential handle are all unset — no partial state remains. -/
theorem c2_failed_refresh_clears_cache :
    (∀ (m : GCPTokenManager) (now : Int) (msg : String),
        m.is_token_valid now = false →
          (∃ d, (m.get_token now (.failure msg)).1 = .error ⟨500, d⟩) ∧
          (m.get_token now (.failure msg)).2.1.token_cache = none ∧
          (m.get_token now (.failure msg)).2.1.token_expiry = none ∧
          (m.get_token now (.failure msg)).2.1.credentials = none) ∧
    (∀ (a : AWSCredentialsManager) (now : Int) (msg : String),
        a.should_refresh_credentials now = true →
          (∃ d, (a.get_credentials now (.failure msg)).1 = .error ⟨500, d⟩) ∧
          (a.get_credentials now (.failure msg)).2.1.credentials_cache = none ∧
          (a.get_credentials now (.failure msg)).2.1.credentials_expiry = none ∧
          (a.get_credentials now (.failure msg)).2.1.google_credentials = none) :=
  ⟨gcp_fail_clears, aws_fail_clears⟩

/-- Witness for C2: a failed refresh from the initial (stale) state of each store. -/
theorem c2_witness :
    ((∃ d, (GCPTokenManager.init.get_token 0 (.failure "boom")).1 = .error ⟨500, d⟩) ∧
      (GCPTokenManager.init.get_token 0 (.failure "boom")).2.1.token_cache = none ∧
      (GCPTokenManager.init.get_token 0 (.failure "boom")).2.1.token_expiry = none ∧
      (GCPTokenManager.init.get_token 0 (.failure "boom")).2.1.credentials = none) ∧
    ((∃ d, (AWSCredentialsManager.init.get_credentials 0 (.failure "boom")).1
          = .error ⟨500, d⟩) ∧
      (AWSCredentialsManager.init.get_credentials 0 (.failure "boom")).2.1.credentials_cache
          = none ∧
      (AWSCredentialsManager.init.get_credentials 0 (.failure "boom")).2.1.credentials_expiry
          = none ∧
      (AWSCredentialsManager.init.get_credentials 0 (.failure "boom")).2.1.google_credentials
          = none) :=
  ⟨c2_failed_refresh_clears_cache.1 GCPTokenManager.init 0 "boom" rfl,
   c2_failed_refresh_clears_cache.2 AWSCredentialsManager.init 0 "boom" rfl⟩

/-- C3: While the cached entry is valid, any number of `get_token` /
`get_credentials` calls performs zero upstream refresh calls, each call returns
the same cached value, and the store's state is unchanged. -/
theorem c3_valid_cache_idempotent :
    (∀ (m : GCPTokenManager) (l : List (Int × RefreshResult)),
        (∀ p ∈ l, m.is_token_valid p.1 = true) →
          get_token_iter m l = (l.map (fun _ => Except.ok m.token_cache), m, 0)) ∧
    (∀ (a : AWSCredentialsManager) (l : List (Int × StsResult)),
        (∀ p ∈ l, a.should_refresh_credentials p.1 = false) →
          get_credentials_iter a l = (l.map (fun _ => Except.ok a.credentials_cache), a, 0)) :=
  ⟨gcp_iter_valid, aws_iter_valid⟩

/-- Witness for C3: two calls on a concrete valid token store and one call on a
concrete valid credential store. -/
theorem c3_witness :
    get_token_iter (GCPTokenManager.mk (some "tok") (some 4000) (some ()) 300)
        [(0, .failure "a"), (1, .success "b")] =
      ([Except.ok (some "tok"), Except.ok (some "tok")],
        GCPTokenManager.mk (some "tok") (some 4000) (some ()) 300, 0) ∧
    get_credentials_iter
        (AWSCredentialsManager.mk (some (AWSCreds.mk "AK" "SK" "ST")) (some 4000) (some ())
          3600 300) [(0, .failure "a")] =
      ([Except.ok (some (AWSCreds.mk "AK" "SK" "ST"))],
        AWSCredentialsManager.mk (some (AWSCreds.mk "AK" "SK" "ST")) (some 4000) (some ())
          3600 300, 0) :=
  ⟨c3_valid_cache_idempotent.1 (GCPTokenManager.mk (some "tok") (some 4000) (some ()) 300)
      [(0, .failure "a"), (1, .success "b")] (by decide),
   c3_valid_cache_idempotent.2
      (AWSCredentialsManager.mk (some (AWSCreds.mk "AK" "SK" "ST")) (some 4000) (some ())
        3600 300) [(0, .failure "a")] (by decide)⟩

/-- C4: Refutation of single-flight refresh at the code's concrete behaviour.
Under the spec's concurrency model (refresh is a suspension point), two
concurrent `get_token` requests that both observe the stale initial cache each
perform their own upstream refresh: the interleaving check-A, check-B,
refresh-A, refresh-B ends with two upstream refresh calls, not one, and the two
callers hold different tokens. -/
theorem c4_concurrent_refresh_duplicates :
    (runTwo 0 "tokA" "tokB" [false, true, false, true]
        ⟨GCPTokenManager.init, 0⟩ .start .start).1.refresh_calls = 2 ∧
    (runTwo 0 "tokA" "tokB" [false, true, false, true]
        ⟨GCPTokenManager.init, 0⟩ .start .start).2.1 = .finished (some "tokA") ∧
    (runTwo 0 "tokA" "tokB" [false, true, false, true]
        ⟨GCPTokenManager.init, 0⟩ .start .start).2.2 = .finished (some "tokB") ∧
    TaskPC.finished (some "tokA") ≠ TaskPC.finished (some "tokB") :=
  ⟨by decide, by decide, by decide, by decide⟩

/-- C5: `_determine_service` implements exactly the spec's case-insensitive,
ordered, first-match-wins prefix table; the `proxyapp.py` copy agrees with it,
and `InvokeAgentSomething` resolves to the runtime service, not the agent one. -/
theorem c5_resolve_service_first_match :
    (∀ op : String, determine_service op = resolveServiceSpec op) ∧
    (∀ op : String, proxyapp_determine_service op = determine_service op) ∧
    determine_service "InvokeAgentSomething" = "bedrock-runtime" ∧
    determine_service "AgentAlias" = "bedrock-agent" ∧
    determine_service "StreamText" = "bedrock-runtime" ∧
    determine_service "ListFoundationModels" = "bedrock" := by
  refine ⟨?_, ?_, by decide, by decide, by decide, by decide⟩
  · intro op
    simp only [determine_service, resolveServiceSpec, specServiceRules, firstMatch,
      List.any_cons, List.any_nil, Bool.or_false]
  · intro op
    have h1 : dictGet BEDROCK_SERVICES "runtime" = "bedrock-runtime" := by decide
    have h2 : dictGet BEDROCK_SERVICES "agent" = "bedrock-agent" := by decide
    have h3 : dictGet BEDROCK_SERVICES "default" = "bedrock" := by decide
    simp only [proxyapp_determine_service, determine_service, h1, h2, h3]

/-- C6: Evaluation at a denied verdict.  `validate_request` does raise the 403
internally, but its own blanket exception handler — and likewise the `/predict`
handler's — re-raises it as HTTP 500, so the inbound request is answered with
500 (detail wrapping the 403), not 403; no backend call is made. -/
theorem c6_denied_verdict_maps_to_500 :
    validate_request "denied" =
      .error ⟨500, "Validation error: 403: Request not approved by GCP Gateway"⟩ ∧
    validate_request "denied" ≠ .error ⟨403, "Request not approved by GCP Gateway"⟩ ∧
    predict "denied" ["invoke_model"] "InvokeModel" (.success (.pyOther 0)) =
      (.error ⟨500, "Error processing request: 403: Request not approved by GCP Gateway"⟩,
        false) :=
  ⟨rfl, by intro h; injection h with h2; exact absurd (congrArg HTTPException.status_code h2) (by decide), rfl⟩

/-- C7: Evaluation at a missing backend operation.  The operation name is
translated to snake_case and `call_bedrock_service` does raise the 400
`InvalidOperation` error, but the `/predict` handler's blanket exception
handler re-raises it as HTTP 500, so the inbound endpoint answers 500, not 400. -/
theorem c7_invalid_operation_maps_to_500 :
    to_snake_case "InvokeModel" = "invoke_model" ∧
    to_snake_case "InvalidOp" = "invalid_op" ∧
    call_bedrock_service ["invoke_model"] "InvalidOp" (.success (.pyOther 0)) =
      .error ⟨400, "Invalid Bedrock operation: InvalidOp"⟩ ∧
    predict "approved" ["invoke_model"] "InvalidOp" (.success (.pyOther 0)) =
      (.error ⟨500, "Error processing request: 400: Invalid Bedrock operation: InvalidOp"⟩,
        true) :=
  ⟨by decide, by decide, rfl, rfl⟩

/-- C8: Evaluation of the client cache.  The `services/bedrock_client.py`
`get_client` constructs a fresh client on every call and overwrites the cache
entry — two successive calls for the same operation construct two clients and
the second returned client differs from the first — while the `proxyapp.py`
variant constructs only on a cache miss and returns the identical cached client
on the second call. -/
theorem c8_client_rebuilt_every_call :
    ((BedrockClientManager.mk []).get_client "InvokeModel"
        (AWSCreds.mk "AK" "SK" "ST") "us-east-1" 0).2.2 = 1 ∧
    (((BedrockClientManager.mk []).get_client "InvokeModel"
        (AWSCreds.mk "AK" "SK" "ST") "us-east-1" 0).2.1.get_client "InvokeModel"
        (AWSCreds.mk "AK" "SK" "ST") "us-east-1" 1).2.2 = 2 ∧
    (((BedrockClientManager.mk []).get_client "InvokeModel"
        (AWSCreds.mk "AK" "SK" "ST") "us-east-1" 0).2.1.get_client "InvokeModel"
        (AWSCreds.mk "AK" "SK" "ST") "us-east-1" 1).1 ≠
      ((BedrockClientManager.mk []).get_client "InvokeModel"
        (AWSCreds.mk "AK" "SK" "ST") "us-east-1" 0).1 ∧
    (proxyapp_get_client [] "InvokeModel" "us-east-1" 0).2.2 = 1 ∧
    (proxyapp_get_client (proxyapp_get_client [] "InvokeModel" "us-east-1" 0).2.1
        "InvokeModel" "us-east-1" 1).2.2 = 1 ∧
    (proxyapp_get_client (proxyapp_get_client [] "InvokeModel" "us-east-1" 0).2.1
        "InvokeModel" "us-east-1" 1).1 =
      (proxyapp_get_client [] "InvokeModel" "us-east-1" 0).1 :=
  ⟨by decide, by decide, by decide, by decide, by decide, by decide⟩

/-- C9 (counterexample to the non-emptiness reading): the code stores whatever
the upstream refresh returns without checking emptiness, so the reachable state
after `get_token 0 (.success "")` caches the empty string with its expiry set,
and the state after an exchange returning an all-empty triple caches three
empty strings with the expiry set — refuting "value/three strings non-empty iff
expiry set" over all reachable states of each cache. -/
theorem c9_counterexample :
    ¬ (∀ m : GCPTokenManager, GCPReach m → gcp_value_nonempty_iff_expiry m) ∧
    ¬ (∀ a : AWSCredentialsManager, AWSReach a → aws_triple_nonempty_iff_expiry a) := by
  constructor
  · intro h
    have hr : GCPReach (GCPTokenManager.init.get_token 0 (.success "")).2.1 :=
      GCPReach.get GCPTokenManager.init 0 (.success "") GCPReach.init
    have hex : (GCPTokenManager.init.get_token 0 (.success "")).2.1.token_expiry.isSome
        = true := rfl
    obtain ⟨t, ht, hne⟩ := (h _ hr).mpr hex
    have hc : (GCPTokenManager.init.get_token 0 (.success "")).2.1.token_cache
        = some "" := rfl
    rw [hc] at ht
    injection ht with h2
    exact hne h2.symm
  · intro h
    have hr : AWSReach (AWSCredentialsManager.init.get_credentials 0
        (.success (AWSCreds.mk "" "" "") 3600)).2.1 :=
      AWSReach.get AWSCredentialsManager.init 0
        (.success (AWSCreds.mk "" "" "") 3600) AWSReach.init
    have hex : (AWSCredentialsManager.init.get_credentials 0
        (.success (AWSCreds.mk "" "" "") 3600)).2.1.credentials_expiry.isSome = true := rfl
    obtain ⟨c, hcase, h1, h2, h3⟩ := (h _ hr).mpr hex
    have hc : (AWSCredentialsManager.init.get_credentials 0
        (.success (AWSCreds.mk "" "" "") 3600)).2.1.credentials_cache
        = some (AWSCreds.mk "" "" "") := rfl
    rw [hc] at hcase
    injection hcase with h4
    rw [← h4] at h1
    exact h1 rfl

/-- C9 (amended): every reachable state of each cache satisfies the pairing
invariant at the presence level — the cached token value is set iff its expiry
is set, and the credential triple (stored as one atomic unit) is set iff its
expiry is set, the fields being set and cleared together by every operation;
the claim's stronger non-emptiness pairing holds over every state reachable
when the upstream refreshes return non-empty token/credential strings, since
the code stores upstream results verbatim without an emptiness check. -/
theorem c9_cache_pairing_invariant :
    (∀ m : GCPTokenManager, GCPReach m → m.token_cache.isSome = m.token_expiry.isSome) ∧
    (∀ a : AWSCredentialsManager, AWSReach a →
        a.credentials_cache.isSome = a.credentials_expiry.isSome) ∧
    (∀ m : GCPTokenManager, GCPReachNE m → gcp_value_nonempty_iff_expiry m) ∧
    (∀ a : AWSCredentialsManager, AWSReachNE a → aws_triple_nonempty_iff_expiry a) :=
  ⟨gcp_pairing, aws_pairing, gcp_pairing_ne, aws_pairing_ne⟩

/-- Witness for C9 at the reachable states produced by one successful refresh of
each store, with non-empty upstream results for the non-emptiness conjuncts. -/
theorem c9_witness :
    (GCPTokenManager.init.get_token 0 (.success "tok")).2.1.token_cache.isSome =
      (GCPTokenManager.init.get_token 0 (.success "tok")).2.1.token_expiry.isSome ∧
    (AWSCredentialsManager.init.get_credentials 0
        (.success (AWSCreds.mk "AK" "SK" "ST") 3600)).2.1.credentials_cache.isSome =
      (AWSCredentialsManager.init.get_credentials 0
        (.success (AWSCreds.mk "AK" "SK" "ST") 3600)).2.1.credentials_expiry.isSome ∧
    gcp_value_nonempty_iff_expiry (GCPTokenManager.init.get_token 0 (.success "tok")).2.1 ∧
    aws_triple_nonempty_iff_expiry (AWSCredentialsManager.init.get_credentials 0
        (.success (AWSCreds.mk "AK" "SK" "ST") 3600)).2.1 :=
  ⟨c9_cache_pairing_invariant.1 _
      (GCPReach.get GCPTokenManager.init 0 (.success "tok") GCPReach.init),
   c9_cache_pairing_invariant.2.1 _
      (AWSReach.get AWSCredentialsManager.init 0
        (.success (AWSCreds.mk "AK" "SK" "ST") 3600) AWSReach.init),
   c9_cache_pairing_invariant.2.2.1 _
      (GCPReachNE.get_success GCPTokenManager.init 0 "tok" (by decide) GCPReachNE.init),
   c9_cache_pairing_invariant.2.2.2 _
      (AWSReachNE.get_success AWSCredentialsManager.init 0 3600 (AWSCreds.mk "AK" "SK" "ST")
        (by decide) (by decide) (by decide) AWSReachNE.init)⟩

/-- C10: `clean_response` is idempotent: applying it twice (sequencing the
second application on the first's result, with a `UnicodeDecodeError` raise
propagating) yields exactly the first application's outcome — in particular a
decodable binary payload becomes a `body`-keyed mapping of decoded text, which
is a fixed point, a mapping with its bytes entries decoded is a fixed point,
and every non-bytes non-mapping shape passes through unchanged. -/
theorem c10_clean_response_idempotent :
    (∀ v : PyVal, (clean_response v).bind clean_response = clean_response v) ∧
    (∀ b : List UInt8, clean_response (.pyBytes b) =
        (decode_utf8 b).map (fun s => .pyDict [("body", .pyStr s)])) ∧
    (∀ s : String, clean_response (.pyStr s) = .ok (.pyStr s)) ∧
    (∀ n : Nat, clean_response (.pyOther n) = .ok (.pyOther n)) := by
  refine ⟨?_, fun b => rfl, fun s => rfl, fun n => rfl⟩
  intro v
  cases v with
  | pyStr s => rfl
  | pyOther tag => rfl
  | pyBytes b =>
      show ((decode_utf8 b).map (fun s => PyVal.pyDict [("body", PyVal.pyStr s)])).bind
          clean_response =
        (decode_utf8 b).map (fun s => PyVal.pyDict [("body", PyVal.pyStr s)])
      cases hd : decode_utf8 b with
      | error e => rfl
      | ok s => rfl
  | pyDict es =>
      show ((cleanEntries es).map PyVal.pyDict).bind clean_response =
        (cleanEntries es).map PyVal.pyDict
      cases h : cleanEntries es with
      | error e => rfl
      | ok es' =>
          show (cleanEntries es').map PyVal.pyDict = Except.ok (PyVal.pyDict es')
          rw [cleanEntries_fix es es' h]
          rfl
